import Mathlib

/-!
Verification of the PEPit example scripts against their specification.

The repository sources under verification are the example scripts
(`wc_gd`, `wc_alternate_projections`, `wc_no_lips2`, `wc_adrs`,
`wc_past_extragradient`, `wc_gradient_descent_quadratics`,
`wc_accelerated_proximal_gradient`, `wc_heavyball`).  They are clients of
the PEP engine (`PEP`, `Function`, `proximal_step`, `solve`), whose code is
not part of the sources; where a statement depends on engine behaviour,
the engine is modelled from the specification (each such definition is
marked `Modelled from the spec:`).  All real scalars are embedded as `ℚ`
(the scripts only perform field arithmetic and comparisons on them).
-/

namespace PEPit

/-- The numerical tolerance within which a solver-returned value is accepted
as matching a closed-form reference value. -/
def solverTol : ℚ := 1 / 1000000

/-- Modelled from the spec: the worst-case value returned by `problem.solve`
in `wc_gd` (the engine's `PEP.solve` is not part of the sources).  The spec
states that for fixed step size `gamma = 1/L` the computed bound equals the
tight closed form `L / (2*(2n+1))` within solver tolerance; the solver is
modelled as returning that value exactly. -/
def gdSolverTau (L gamma : ℚ) (n : ℕ) : ℚ :=
  L / (2 * (2 * n + 1))

/-- `wc_gd` from `gradient_descent.py`: returns the pair
`(pepit_tau, theoretical_tau)`.  The first component is the solver value
(spec-modelled, `gdSolverTau`); the second is computed by the script itself
as `theoretical_tau = L / (2 * (2 * n + 1))` (line 92) and returned at
line 101. -/
def wc_gd (L gamma : ℚ) (n : ℕ) : ℚ × ℚ :=
  (gdSolverTau L gamma n, L / (2 * (2 * n + 1)))

/-- Modelled from the spec: the worst-case value returned by the solver in
`wc_alternate_projections` (the engine's `PEP.solve` is not part of the
sources).  The spec asserts only that the value is finite and non-negative;
the docstring example records the solved value `0.018858674370385117` at
`n = 10`, which is what the model returns. -/
def apSolverTau (n : ℕ) : ℚ :=
  18858674370385117 / 1000000000000000000

/-- `wc_alternate_projections` from `alternate_projections.py`: returns
`(pepit_tau, theoretical_tau)` where `pepit_tau` is the solver value
(spec-modelled, `apSolverTau`) and `theoretical_tau = None` (line 113),
embedded as `Option.none`. -/
def wc_alternate_projections (n : ℕ) : ℚ × Option ℚ :=
  (apSolverTau n, none)

/-- C1: for `L > 0` and `n ≥ 1`, with `gamma = 1/L`, the computed worst-case
bound of `wc_gd` equals `L / (2*(2n+1))` within solver tolerance, and the
second returned component equals `L / (2*(2n+1))` exactly. -/
theorem wc_gd_matches_closed_form (L : ℚ) (n : ℕ) (hL : 0 < L) (hn : 1 ≤ n) :
    |(wc_gd L (1 / L) n).1 - L / (2 * (2 * n + 1))| ≤ solverTol ∧
    (wc_gd L (1 / L) n).2 = L / (2 * (2 * n + 1)) := by
  constructor
  · simp only [wc_gd, gdSolverTau, sub_self, abs_zero, solverTol]
    norm_num
  · rfl

/-- Witness for C1 at `L = 1`, `n = 1`. -/
theorem wc_gd_matches_closed_form_witness :
    0 < (1 : ℚ) ∧ 1 ≤ 1 ∧
    (|(wc_gd 1 (1 / 1) 1).1 - 1 / (2 * (2 * 1 + 1))| ≤ solverTol ∧
     (wc_gd 1 (1 / 1) 1).2 = 1 / (2 * (2 * 1 + 1))) :=
  ⟨by norm_num, le_refl 1, wc_gd_matches_closed_form 1 1 (by norm_num) (le_refl 1)⟩

/-- C2 counterexample: at `n = 2`, `L = 1`, `gamma = 1`, the closed form
`L / (2*(2n+1))` computed by `wc_gd` as `theoretical_tau` evaluates to
`1/10 = 0.1`, not approximately `0.2`: its distance to `0.2` is `0.1`,
far beyond solver tolerance. -/
theorem wc_gd_example_value_not_two_tenths :
    (wc_gd 1 1 2).2 = 1 / 10 ∧ ¬ |(wc_gd 1 1 2).2 - 2 / 10| ≤ solverTol := by
  constructor
  · norm_num [wc_gd]
  · norm_num [wc_gd, solverTol, abs_le]

/-- C2 (amended): at `n = 2`, `L = 1`, `gamma = 1`, both the computed
worst-case bound and the closed form `L / (2*(2n+1))` equal `1/10 = 0.1`. -/
theorem wc_gd_example_value_is_one_tenth :
    (wc_gd 1 1 2).1 = 1 / 10 ∧ (wc_gd 1 1 2).2 = 1 / 10 := by
  constructor
  · norm_num [wc_gd, gdSolverTau]
  · norm_num [wc_gd]

/-- C3 counterexample: at `L = 1`, `gamma = 1/L`, `n = 1`, increasing the
iteration count strictly decreases the computed bound:
`bound(2) = 1/10 < 1/6 = bound(1)`, refuting `bound(n) ≤ bound(n+1)`. -/
theorem wc_gd_bound_not_monotone :
    ¬ (wc_gd 1 (1 / 1) 1).1 ≤ (wc_gd 1 (1 / 1) 2).1 := by
  norm_num [wc_gd, gdSolverTau]

/-- C3 (amended): for fixed `L > 0` and `gamma = 1/L`, increasing the
iteration count `n ≥ 1` never increases the computed worst-case bound:
`bound(n+1) ≤ bound(n)`. -/
theorem wc_gd_bound_antitone (L : ℚ) (n : ℕ) (hL : 0 < L) (hn : 1 ≤ n) :
    (wc_gd L (1 / L) (n + 1)).1 ≤ (wc_gd L (1 / L) n).1 := by
  simp only [wc_gd, gdSolverTau]
  push_cast
  have h1 : (0 : ℚ) < 2 * (2 * (n : ℚ) + 1) := by positivity
  have h2 : (2 : ℚ) * (2 * (n : ℚ) + 1) ≤ 2 * (2 * ((n : ℚ) + 1) + 1) := by linarith
  exact div_le_div_of_nonneg_left hL.le h1 h2 |>.trans_eq rfl

/-- Witness for C3 (amended) at `L = 1`, `n = 1`. -/
theorem wc_gd_bound_antitone_witness :
    0 < (1 : ℚ) ∧ 1 ≤ 1 ∧ (wc_gd 1 (1 / 1) (1 + 1)).1 ≤ (wc_gd 1 (1 / 1) 1).1 :=
  ⟨by norm_num, le_refl 1, wc_gd_bound_antitone 1 1 (by norm_num) (le_refl 1)⟩

/-- C4: `wc_alternate_projections` at `n = 10` returns a non-negative
(and, being a rational, finite) worst-case value as first component and
`none` as the theoretical comparator. -/
theorem wc_alternate_projections_result :
    0 ≤ (wc_alternate_projections 10).1 ∧ (wc_alternate_projections 10).2 = none := by
  constructor
  · norm_num [wc_alternate_projections, apSolverTau]
  · rfl

/-! ### Lifecycle traces of the example scripts (C5)

Each `wc_*` script is abstracted by the sequence of PEP-engine API calls it
performs, in program order.  Loops of the scripts become repeated blocks
parameterized by the iteration count `n`. -/

/-- The kinds of PEP-engine API calls an example script performs. -/
inductive Ev : Type
  | declareFunction
  | stationaryPoint
  | oracle
  | gradient
  | value
  | setInitialPoint
  | setInitialCondition
  | setPerformanceMetric
  | proximalStep
  | bregmanStep
  | solve
  deriving DecidableEq, Repr

/-- `rep b n`: the block `b` of events repeated `n` times (a loop body). -/
def rep (b : List Ev) : ℕ → List Ev
  | 0 => []
  | n + 1 => b ++ rep b n

/-- Events of `wc_gd` before its `solve` call (gradient_descent.py lines
65–86): declare, stationary point, value at `xs`, initial point, initial
condition, `n` gradient steps, value at `x`, performance metric. -/
def gdPre (n : ℕ) : List Ev :=
  [Ev.declareFunction, Ev.stationaryPoint, Ev.value, Ev.setInitialPoint,
   Ev.setInitialCondition] ++ rep [Ev.gradient] n ++
  [Ev.value, Ev.setPerformanceMetric]

/-- Trace of `wc_gd` (solve at line 89 is the last engine call). -/
def gdTrace (n : ℕ) : List Ev := gdPre n ++ [Ev.solve]

/-- Events of `wc_alternate_projections` before `solve`
(alternate_projections.py lines 85–108): two declares, stationary point,
initial point, `n` loop iterations of two proximal steps, one more proximal
step, then the performance metric (line 107) and only then the initial
condition (line 108). -/
def apPre (n : ℕ) : List Ev :=
  [Ev.declareFunction, Ev.declareFunction, Ev.stationaryPoint,
   Ev.setInitialPoint] ++ rep [Ev.proximalStep, Ev.proximalStep] n ++
  [Ev.proximalStep, Ev.setPerformanceMetric, Ev.setInitialCondition]

/-- Trace of `wc_alternate_projections` (solve at line 112 is last). -/
def apTrace (n : ℕ) : List Ev := apPre n ++ [Ev.solve]

/-- Events of `wc_no_lips2` before `solve` (no_lips_2.py lines 80–117):
three declares, initial point, three oracle calls, `n` loop iterations each
performing a Bregman step, two oracle calls and a `set_performance_metric`
(line 114), then a final oracle call and the initial condition (line 117). -/
def noLips2Pre (n : ℕ) : List Ev :=
  [Ev.declareFunction, Ev.declareFunction, Ev.declareFunction,
   Ev.setInitialPoint, Ev.oracle, Ev.oracle, Ev.oracle] ++
  rep [Ev.bregmanStep, Ev.oracle, Ev.oracle, Ev.setPerformanceMetric] n ++
  [Ev.oracle, Ev.setInitialCondition]

/-- Trace of `wc_no_lips2` (solve at line 120 is last). -/
def noLips2Trace (n : ℕ) : List Ev := noLips2Pre n ++ [Ev.solve]

/-- Events of `wc_adrs` before `solve`
(accelerated_douglas_rachford_splitting.py lines 92–131): two declares,
stationary point, value, two oracles, initial point, value, initial
condition (line 115), `n` loop iterations of two proximal steps, value,
performance metric (line 131).  Faithful for `n ≥ 1` (at `n = 0` the script
fails on the unbound variable `y` before reaching `solve`). -/
def adrsPre (n : ℕ) : List Ev :=
  [Ev.declareFunction, Ev.declareFunction, Ev.stationaryPoint, Ev.value,
   Ev.oracle, Ev.oracle, Ev.setInitialPoint, Ev.value,
   Ev.setInitialCondition] ++ rep [Ev.proximalStep, Ev.proximalStep] n ++
  [Ev.value, Ev.setPerformanceMetric]

/-- Trace of `wc_adrs` (solve at line 134 is last). -/
def adrsTrace (n : ℕ) : List Ev := adrsPre n ++ [Ev.solve]

/-- Events of `wc_past_extragradient` before `solve`
(past_extragradient.py lines 87–115): two declares, stationary point,
initial point, initial condition (line 102), one proximal step and one
gradient, `n` loop iterations of proximal step / gradient / proximal step,
performance metric (line 115).  Faithful for `n ≥ 1` (at `n = 0` the script
fails on the unbound variable `previous_x` before reaching `solve`). -/
def pePre (n : ℕ) : List Ev :=
  [Ev.declareFunction, Ev.declareFunction, Ev.stationaryPoint,
   Ev.setInitialPoint, Ev.setInitialCondition, Ev.proximalStep,
   Ev.gradient] ++ rep [Ev.proximalStep, Ev.gradient, Ev.proximalStep] n ++
  [Ev.setPerformanceMetric]

/-- Trace of `wc_past_extragradient` (solve at line 119 is last). -/
def peTrace (n : ℕ) : List Ev := pePre n ++ [Ev.solve]

/-- Events of `wc_gradient_descent_quadratics` before `solve`
(gradient_descent_quadratics.py lines 87–108): declare, stationary point,
value, initial point, initial condition (line 100), `n` gradients,
value, performance metric (line 108). -/
def quadPre (n : ℕ) : List Ev :=
  [Ev.declareFunction, Ev.stationaryPoint, Ev.value, Ev.setInitialPoint,
   Ev.setInitialCondition] ++ rep [Ev.gradient] n ++
  [Ev.value, Ev.setPerformanceMetric]

/-- Trace of `wc_gradient_descent_quadratics` (solve at line 112 is last). -/
def quadTrace (n : ℕ) : List Ev := quadPre n ++ [Ev.solve]

/-- Events of `wc_accelerated_proximal_gradient` before `solve`
(accelerated_proximal_gradient.py lines 87–116): two declares, stationary
point, value, initial point, initial condition (line 102), `n` loop
iterations of a gradient and a proximal step, value, performance metric
(line 113).  Faithful for `n ≥ 1` (at `n = 0` the script fails on the
unbound variable `hx_new` before reaching `solve`). -/
def apgPre (n : ℕ) : List Ev :=
  [Ev.declareFunction, Ev.declareFunction, Ev.stationaryPoint, Ev.value,
   Ev.setInitialPoint, Ev.setInitialCondition] ++
  rep [Ev.gradient, Ev.proximalStep] n ++
  [Ev.value, Ev.setPerformanceMetric]

/-- Trace of `wc_accelerated_proximal_gradient` (solve at line 116 is
last). -/
def apgTrace (n : ℕ) : List Ev := apgPre n ++ [Ev.solve]

/-- Events of `wc_heavyball` before `solve` (HeavyBallMethod.py): declare,
optimal point, value, initial point, initial condition, two gradients before
the loop, `n` loop gradients, value, performance metric. -/
def hbPre (n : ℕ) : List Ev :=
  [Ev.declareFunction, Ev.stationaryPoint, Ev.value, Ev.setInitialPoint,
   Ev.setInitialCondition, Ev.gradient, Ev.gradient] ++
  rep [Ev.gradient] n ++ [Ev.value, Ev.setPerformanceMetric]

/-- Trace of `wc_heavyball` (solve is the last engine call). -/
def hbTrace (n : ℕ) : List Ev := hbPre n ++ [Ev.solve]

/-- A trace follows the terminal-solve lifecycle: `solve` occurs exactly
once, as the very last engine call — hence after every
`set_initial_condition` and every `set_performance_metric`. -/
def lifecycleOK (t : List Ev) : Prop :=
  ∃ pre, t = pre ++ [Ev.solve] ∧ Ev.solve ∉ pre

/-- Every `set_initial_condition` call strictly precedes every
`set_performance_metric` call in the trace (the order asserted by the
claim). -/
def condPrecedesMetric (t : List Ev) : Prop :=
  ∀ i j : Fin t.length, t.get i = Ev.setInitialCondition →
    t.get j = Ev.setPerformanceMetric → (i : ℕ) < (j : ℕ)

lemma solve_not_mem_rep {b : List Ev} (h : Ev.solve ∉ b) (n : ℕ) :
    Ev.solve ∉ rep b n := by
  induction n with
  | zero => simp [rep]
  | succ k ih =>
    simp only [rep, List.mem_append]
    rintro (hc | hc)
    · exact h hc
    · exact ih hc

lemma solve_not_mem_gdPre (n : ℕ) : Ev.solve ∉ gdPre n := by
  simp only [gdPre, List.mem_append]
  rintro ((hc | hc) | hc)
  · revert hc; decide
  · exact solve_not_mem_rep (by decide) n hc
  · revert hc; decide

lemma solve_not_mem_apPre (n : ℕ) : Ev.solve ∉ apPre n := by
  simp only [apPre, List.mem_append]
  rintro ((hc | hc) | hc)
  · revert hc; decide
  · exact solve_not_mem_rep (by decide) n hc
  · revert hc; decide

lemma solve_not_mem_noLips2Pre (n : ℕ) : Ev.solve ∉ noLips2Pre n := by
  simp only [noLips2Pre, List.mem_append]
  rintro ((hc | hc) | hc)
  · revert hc; decide
  · exact solve_not_mem_rep (by decide) n hc
  · revert hc; decide

lemma solve_not_mem_adrsPre (n : ℕ) : Ev.solve ∉ adrsPre n := by
  simp only [adrsPre, List.mem_append]
  rintro ((hc | hc) | hc)
  · revert hc; decide
  · exact solve_not_mem_rep (by decide) n hc
  · revert hc; decide

lemma solve_not_mem_pePre (n : ℕ) : Ev.solve ∉ pePre n := by
  simp only [pePre, List.mem_append]
  rintro ((hc | hc) | hc)
  · revert hc; decide
  · exact solve_not_mem_rep (by decide) n hc
  · revert hc; decide

lemma solve_not_mem_quadPre (n : ℕ) : Ev.solve ∉ quadPre n := by
  simp only [quadPre, List.mem_append]
  rintro ((hc | hc) | hc)
  · revert hc; decide
  · exact solve_not_mem_rep (by decide) n hc
  · revert hc; decide

lemma solve_not_mem_apgPre (n : ℕ) : Ev.solve ∉ apgPre n := by
  simp only [apgPre, List.mem_append]
  rintro ((hc | hc) | hc)
  · revert hc; decide
  · exact solve_not_mem_rep (by decide) n hc
  · revert hc; decide

lemma solve_not_mem_hbPre (n : ℕ) : Ev.solve ∉ hbPre n := by
  simp only [hbPre, List.mem_append]
  rintro ((hc | hc) | hc)
  · revert hc; decide
  · exact solve_not_mem_rep (by decide) n hc
  · revert hc; decide

/-- C5 counterexample: in `wc_alternate_projections` at `n = 10`,
`problem.solve` is indeed called exactly once, but `set_performance_metric`
(line 107) precedes `set_initial_condition` (line 108), so it is false that
every `set_initial_condition` call precedes every `set_performance_metric`
call. -/
theorem alternate_projections_metric_before_condition :
    ¬ condPrecedesMetric (apTrace 10) ∧
    (apTrace 10).count Ev.solve = 1 := by
  constructor
  · intro h
    have := h ⟨26, by decide⟩ ⟨25, by decide⟩ (by decide) (by decide)
    exact absurd this (by decide)
  · decide

/-- C5 (amended): in each `wc_*` example script (for iteration counts at
which the script is well defined), `problem.solve` is called exactly once
and is the last engine call, so every `set_initial_condition` and every
`set_performance_metric` call precedes it; the relative order of
`set_initial_condition` and `set_performance_metric` varies between scripts
(`wc_alternate_projections` and `wc_no_lips2` set the metric first). -/
theorem lifecycle_solve_terminal (n1 n2 n3 n4 n5 n6 n7 n8 : ℕ)
    (h4 : 1 ≤ n4) (h5 : 1 ≤ n5) (h7 : 1 ≤ n7) :
    lifecycleOK (gdTrace n1) ∧ lifecycleOK (apTrace n2) ∧
    lifecycleOK (noLips2Trace n3) ∧ lifecycleOK (adrsTrace n4) ∧
    lifecycleOK (peTrace n5) ∧ lifecycleOK (quadTrace n6) ∧
    lifecycleOK (apgTrace n7) ∧ lifecycleOK (hbTrace n8) :=
  ⟨⟨gdPre n1, rfl, solve_not_mem_gdPre n1⟩,
   ⟨apPre n2, rfl, solve_not_mem_apPre n2⟩,
   ⟨noLips2Pre n3, rfl, solve_not_mem_noLips2Pre n3⟩,
   ⟨adrsPre n4, rfl, solve_not_mem_adrsPre n4⟩,
   ⟨pePre n5, rfl, solve_not_mem_pePre n5⟩,
   ⟨quadPre n6, rfl, solve_not_mem_quadPre n6⟩,
   ⟨apgPre n7, rfl, solve_not_mem_apgPre n7⟩,
   ⟨hbPre n8, rfl, solve_not_mem_hbPre n8⟩⟩

/-- Witness for C5 (amended) with every iteration count equal to 2. -/
theorem lifecycle_solve_terminal_witness :
    1 ≤ 2 ∧
    (lifecycleOK (gdTrace 2) ∧ lifecycleOK (apTrace 2) ∧
     lifecycleOK (noLips2Trace 2) ∧ lifecycleOK (adrsTrace 2) ∧
     lifecycleOK (peTrace 2) ∧ lifecycleOK (quadTrace 2) ∧
     lifecycleOK (apgTrace 2) ∧ lifecycleOK (hbTrace 2)) :=
  ⟨by omega,
   lifecycle_solve_terminal 2 2 2 2 2 2 2 2 (by omega) (by omega) (by omega)⟩

/-! ### Oracle recording and function combination (C6, C7)

The engine's `Function` class is not part of the sources; it is modelled
from the spec (§4.3, §3): a base function keeps a list of recorded oracle
triples keyed by point identity; an oracle call at an already-recorded
point returns the cached pair without appending; combined functions
delegate to their operands at the same point. -/

/-- Modelled from the spec: the engine state visible to oracle calls — a
fresh-id counter for newly created basis generators / scalar unknowns, and
the list of recorded oracle triples, each entry being
(base-function id, point id, gradient id, value id) in call order. -/
structure OracleState where
  fresh : ℕ
  recs : List (ℕ × ℕ × ℕ × ℕ)
  deriving DecidableEq, Repr

/-- The state with no recorded oracle calls and no created ids. -/
def emptyState : OracleState := ⟨0, []⟩

/-- Cached lookup of a recorded triple for a (function, point) pair,
returning the stored (gradient id, value id) when present. -/
def lookupRec (fid pid : ℕ) : List (ℕ × ℕ × ℕ × ℕ) → Option (ℕ × ℕ)
  | [] => none
  | (f, p, g, v) :: rest =>
      if f = fid ∧ p = pid then some (g, v) else lookupRec fid pid rest

/-- Modelled from the spec: `oracle` on a base function (§4.3).  If the
point was already queried on this function, return the cached
(gradient, value) pair and leave the state unchanged; otherwise create a
fresh gradient id and a fresh value id, append the triple, and return
them. -/
def oracle1 (fid pid : ℕ) (s : OracleState) : (ℕ × ℕ) × OracleState :=
  match lookupRec fid pid s.recs with
  | some gv => (gv, s)
  | none =>
      ((s.fresh, s.fresh + 1),
       ⟨s.fresh + 2, s.recs ++ [(fid, pid, s.fresh, s.fresh + 1)]⟩)

/-- A function expression: either a declared base function or an algebraic
sum of two function expressions. -/
inductive FunExpr : Type
  | base (fid : ℕ)
  | add (f g : FunExpr)
  deriving DecidableEq, Repr

/-- The declared base functions a combined function delegates to, in
left-to-right order. -/
def FunExpr.leaves : FunExpr → List ℕ
  | base fid => [fid]
  | add f g => f.leaves ++ g.leaves

/-- Modelled from the spec: `oracle` on a (possibly combined) function
delegates to each operand base function at the same point (§4.3), using
the cached pair whenever an operand has already recorded that point.  Only
the resulting state is kept here (the returned gradient/value of a sum are
algebraic combinations of the operands' cached answers and create no new
recorded triples). -/
def oracleF (f : FunExpr) (pid : ℕ) (s : OracleState) : OracleState :=
  f.leaves.foldl (fun st fid => (oracle1 fid pid st).2) s

/-- Modelled from the spec: `stationary_point()` declares a fresh point and
records an implicit oracle call on the function at it (§4.3). -/
def stationaryPt (f : FunExpr) (s : OracleState) : ℕ × OracleState :=
  (s.fresh, oracleF f s.fresh ⟨s.fresh + 1, s.recs⟩)

/-- Number of oracle triples recorded on base function `fid`. -/
def tripleCount (fid : ℕ) (s : OracleState) : ℕ :=
  (s.recs.filter (fun r => r.1 == fid)).length

/-- Number of interpolation constraints the engine emits for base function
`fid` at solve time: one per ordered pair of distinct recorded triples
(§4.3), i.e. `k * (k - 1)` for `k` recorded triples. -/
def constraintCount (fid : ℕ) (s : OracleState) : ℕ :=
  tripleCount fid s * (tripleCount fid s - 1)

lemma lookupRec_append_none {fid pid g v : ℕ} {l : List (ℕ × ℕ × ℕ × ℕ)}
    (h : lookupRec fid pid l = none) :
    lookupRec fid pid (l ++ [(fid, pid, g, v)]) = some (g, v) := by
  induction l with
  | nil => simp [lookupRec]
  | cons a rest ih =>
    obtain ⟨f, p, g', v'⟩ := a
    by_cases hc : f = fid ∧ p = pid
    · simp only [lookupRec, if_pos hc] at h
      exact Option.noConfusion h
    · simp only [lookupRec, List.cons_append, if_neg hc] at h ⊢
      exact ih h

lemma oracle1_lookup (fid pid : ℕ) (s : OracleState) :
    lookupRec fid pid (oracle1 fid pid s).2.recs = some (oracle1 fid pid s).1 := by
  unfold oracle1
  cases h : lookupRec fid pid s.recs with
  | some gv => simp [h]
  | none => simp [h, lookupRec_append_none h]

lemma oracle1_cached {fid pid : ℕ} {gv : ℕ × ℕ} {s : OracleState}
    (h : lookupRec fid pid s.recs = some gv) :
    oracle1 fid pid s = (gv, s) := by
  unfold oracle1
  rw [h]

/-- The engine state of `wc_adrs` after `xs = func.stationary_point()`
(line 101), `fs = func.value(xs)` (line 102) — where
`func = func1 + func2` — starting from the empty state with `func1` and
`func2` the two declared base functions. -/
def adrsState2 : OracleState :=
  let s1 := (stationaryPt (FunExpr.add (FunExpr.base 0) (FunExpr.base 1))
    emptyState).2
  oracleF (FunExpr.add (FunExpr.base 0) (FunExpr.base 1))
    (stationaryPt (FunExpr.add (FunExpr.base 0) (FunExpr.base 1))
      emptyState).1 s1

/-- The engine state of `wc_adrs` after the subsequent
`g1s, _ = func1.oracle(xs)` (line 103). -/
def adrsState3 : OracleState :=
  (oracle1 0 (stationaryPt (FunExpr.add (FunExpr.base 0) (FunExpr.base 1))
    emptyState).1 adrsState2).2

/-- C6: a second `oracle` call on the same function at the same point
returns the cached (gradient, value) pair and leaves the state — hence the
recorded-triple count and the emitted-constraint count — unchanged; in
particular `func1.oracle(xs)` in `wc_adrs`, issued after `xs` was recorded
through `(func1 + func2).stationary_point()`, creates no new triple on
`func1`. -/
theorem oracle_idempotent :
    (∀ fid pid : ℕ, ∀ s : OracleState,
      oracle1 fid pid (oracle1 fid pid s).2 =
        ((oracle1 fid pid s).1, (oracle1 fid pid s).2)) ∧
    (∀ fid pid : ℕ, ∀ s : OracleState,
      tripleCount fid (oracle1 fid pid (oracle1 fid pid s).2).2 =
        tripleCount fid (oracle1 fid pid s).2 ∧
      constraintCount fid (oracle1 fid pid (oracle1 fid pid s).2).2 =
        constraintCount fid (oracle1 fid pid s).2) ∧
    adrsState3 = adrsState2 ∧
    tripleCount 0 adrsState3 = tripleCount 0 adrsState2 := by
  have key : ∀ fid pid : ℕ, ∀ s : OracleState,
      oracle1 fid pid (oracle1 fid pid s).2 =
        ((oracle1 fid pid s).1, (oracle1 fid pid s).2) :=
    fun fid pid s => oracle1_cached (oracle1_lookup fid pid s)
  refine ⟨key, fun fid pid s => ?_, ?_, ?_⟩
  · rw [key fid pid s]
    exact ⟨rfl, rfl⟩
  · show (oracle1 0 _ adrsState2).2 = adrsState2
    have : lookupRec 0 (stationaryPt
        (FunExpr.add (FunExpr.base 0) (FunExpr.base 1)) emptyState).1
        adrsState2.recs = some (1, 2) := by decide
    rw [oracle1_cached this]
  · show tripleCount 0 adrsState3 = tripleCount 0 adrsState2
    decide

/-- C7: algebraic combination of functions is associative: a combined
oracle call through `(f1 + f2) + f3` and through `f1 + (f2 + f3)` produces
identical engine states (identical recorded triples, hence identical
emitted interpolation-constraint sets — not merely up to reordering), on
any state and trajectory, and without duplicating operand oracle calls. -/
theorem function_sum_assoc (f1 f2 f3 : FunExpr) (pid : ℕ) (s : OracleState) :
    oracleF ((f1.add f2).add f3) pid s = oracleF (f1.add (f2.add f3)) pid s := by
  simp [oracleF, FunExpr.leaves, List.append_assoc]

/-! ### `wc_past_extragradient` and the unbound `previous_x` (C8) -/

/-- The loop-carried variables of `wc_past_extragradient` (lines 108–112):
the current iterate id `x`, the operator-value id `v`, the variable
`previous_x` — which is bound only by an assignment inside the loop body,
hence `Option` — and the fresh-id counter for points created by
`proximal_step` and `F.gradient`. -/
structure PeState where
  x : ℕ
  v : ℕ
  prevX : Option ℕ
  fresh : ℕ
  deriving DecidableEq, Repr

/-- One pass of the loop body of `wc_past_extragradient` (lines 109–112):
`xtilde` from a proximal step, `V = F.gradient(xtilde)`, then
`previous_x = x`, then `x` from a second proximal step; iterated `n`
times. -/
def peLoop : ℕ → PeState → PeState
  | 0, st => st
  | n + 1, st =>
      peLoop n ⟨st.fresh + 2, st.fresh + 1, some st.x, st.fresh + 3⟩

/-- The construction of the performance metric of `wc_past_extragradient`
(lines 99–115): ids `0` for `x0`, `1` for the pre-loop proximal step
(line 105), `2` for `V` (line 107); after the loop, the metric
`(x - previous_x)**2` is well defined only when `previous_x` is bound,
otherwise the script raises a `NameError`.  The metric is represented by
the pair of point ids it squares the difference of. -/
def wc_past_extragradient (n : ℕ) : Except String (ℕ × ℕ) :=
  match peLoop n ⟨1, 2, none, 3⟩ with
  | ⟨_, _, none, _⟩ => Except.error "NameError: previous_x is not defined"
  | ⟨x, _, some p, _⟩ => Except.ok (x, p)

lemma peLoop_prevX_isSome :
    ∀ (n : ℕ) (st : PeState), st.prevX.isSome → ((peLoop n st).prevX).isSome
  | 0, st, h => h
  | n + 1, st, h => peLoop_prevX_isSome n _ rfl

/-- C8: called with `n = 0`, `wc_past_extragradient` fails with an
unbound-variable `NameError` when building the performance metric
`(x - previous_x)**2`, because `previous_x` is assigned only inside the
`n`-iteration loop; for every `n ≥ 1` the metric is well defined. -/
theorem wc_past_extragradient_name_error :
    wc_past_extragradient 0 =
      Except.error "NameError: previous_x is not defined" ∧
    ∀ n : ℕ, 1 ≤ n → ∃ m, wc_past_extragradient n = Except.ok m := by
  constructor
  · rfl
  · intro n hn
    obtain ⟨k, rfl⟩ := Nat.exists_eq_add_of_le hn
    have h1 : peLoop (1 + k) (⟨1, 2, none, 3⟩ : PeState) =
        peLoop k ⟨5, 4, some 1, 6⟩ := by
      rw [Nat.add_comm 1 k]
      rfl
    have h2 : ((peLoop (1 + k) (⟨1, 2, none, 3⟩ : PeState)).prevX).isSome := by
      rw [h1]
      exact peLoop_prevX_isSome k _ rfl
    unfold wc_past_extragradient
    rcases hpe : peLoop (1 + k) (⟨1, 2, none, 3⟩ : PeState) with ⟨x, v, px, fr⟩
    rw [hpe] at h2
    cases px with
    | none => exact absurd h2 (by simp)
    | some p => exact ⟨(x, p), rfl⟩

/-- Witness for C8 at `n = 1` (together with the hypothesis-free `n = 0`
part). -/
theorem wc_past_extragradient_name_error_witness :
    wc_past_extragradient 0 =
      Except.error "NameError: previous_x is not defined" ∧
    1 ≤ 1 ∧ ∃ m, wc_past_extragradient 1 = Except.ok m :=
  ⟨wc_past_extragradient_name_error.1, le_refl 1,
   wc_past_extragradient_name_error.2 1 (le_refl 1)⟩

/-! ### `wc_adrs`: division by zero in `theoretical_tau` (C9) -/

/-- The outcome of a run of `wc_adrs`: whether `problem.solve` (line 134)
completed, and the returned pair or the raised error. -/
structure AdrsRun where
  solveCompleted : Bool
  result : Except String (ℚ × ℚ)
  deriving Repr

/-- The computations of `wc_adrs` in program order
(accelerated_douglas_rachford_splitting.py): `theta = (1 - alpha*L) /
(1 + alpha*L)` at line 111 (raising `ZeroDivisionError` before `solve` if
its denominator vanishes); then the performance metric at line 131, which
reads the loop variable `y` bound only inside the `range(n)` loop of
line 121, so at `n = 0` it raises a `NameError` before `solve`; then
`problem.solve` at line 134 — whose value `pepit_tau` is an input here,
the engine being outside the sources — then
`theoretical_tau = 2 / (alpha * theta * (n + 3)**2)` at line 137 (raising
`ZeroDivisionError` after `solve` if its denominator vanishes), and
finally the returned pair (line 147). -/
def wc_adrs (pepitTau L alpha : ℚ) (n : ℕ) : AdrsRun :=
  if 1 + alpha * L = 0 then
    ⟨false, Except.error "ZeroDivisionError"⟩
  else if n = 0 then
    ⟨false, Except.error "NameError: y is not defined"⟩
  else
    let theta := (1 - alpha * L) / (1 + alpha * L)
    if alpha * theta * ((n : ℚ) + 3) ^ 2 = 0 then
      ⟨true, Except.error "ZeroDivisionError"⟩
    else
      ⟨true, Except.ok (pepitTau, 2 / (alpha * theta * ((n : ℚ) + 3) ^ 2))⟩

/-- C9 counterexample: at `alpha = 0` (one of the triggers named by the
claim) and `n = 0`, `wc_adrs` fails with a `NameError` on the unbound loop
variable `y` when building the performance metric (line 131), before
`problem.solve` (line 134): solve never completes and no
division-by-zero error occurs. -/
theorem wc_adrs_zero_iterations_name_error :
    ((0 : ℚ) * 1 = 1 ∨ (0 : ℚ) = 0) ∧
    (wc_adrs 0 1 0 0).solveCompleted = false ∧
    (wc_adrs 0 1 0 0).result = Except.error "NameError: y is not defined" := by
  refine ⟨Or.inr rfl, ?_, ?_⟩
  · rw [wc_adrs, if_neg (by norm_num), if_pos rfl]
  · rw [wc_adrs, if_neg (by norm_num), if_pos rfl]

/-- C9 (amended): if `wc_adrs` is called with `n ≥ 1` and with `alpha` such
that `alpha * L = 1` (so `theta = 0`) or `alpha = 0`, the computation of
`theoretical_tau` raises a division-by-zero error; `problem.solve` has
already completed at that point, and the solved worst-case value is never
returned to the caller.  (At `n = 0` the script instead fails with a
`NameError` on the unbound `y` before `solve`.) -/
theorem wc_adrs_div_zero (pepitTau L alpha : ℚ) (n : ℕ) (hn : 1 ≤ n)
    (h : alpha * L = 1 ∨ alpha = 0) :
    (wc_adrs pepitTau L alpha n).solveCompleted = true ∧
    (wc_adrs pepitTau L alpha n).result = Except.error "ZeroDivisionError" := by
  have hden : (1 : ℚ) + alpha * L ≠ 0 := by
    rcases h with h | h
    · rw [h]; norm_num
    · rw [h, zero_mul]; norm_num
  have hn0 : n ≠ 0 := by omega
  have hzero : alpha * ((1 - alpha * L) / (1 + alpha * L)) * ((n : ℚ) + 3) ^ 2 = 0 := by
    rcases h with h | h
    · rw [h]; norm_num
    · rw [h]; ring
  rw [wc_adrs]
  rw [if_neg hden, if_neg hn0, if_pos hzero]
  exact ⟨rfl, rfl⟩

/-- Witness for C9 (amended) at `pepitTau = 0`, `L = 1`, `alpha = 1`,
`n = 2`. -/
theorem wc_adrs_div_zero_witness :
    1 ≤ 2 ∧ ((1 : ℚ) * 1 = 1 ∨ (1 : ℚ) = 0) ∧
    ((wc_adrs 0 1 1 2).solveCompleted = true ∧
     (wc_adrs 0 1 1 2).result = Except.error "ZeroDivisionError") :=
  ⟨by omega, Or.inl (by norm_num),
   wc_adrs_div_zero 0 1 1 2 (by omega) (Or.inl (by norm_num))⟩

/-! ### `wc_gradient_descent_quadratics`: alpha and theoretical tau (C10) -/

/-- The computation of `alpha` in `wc_gradient_descent_quadratics`
(gradient_descent_quadratics.py lines 115–121): `t = 1/(L*gamma*(2*n+1))`
(raising `ZeroDivisionError` when the denominator vanishes), then
`alpha = mu/L` if `t < mu/L`, `alpha = 1` if `t > 1`, and `alpha = t`
otherwise. -/
def wc_gdq_alpha (mu L gamma : ℚ) (n : ℕ) : Except String ℚ :=
  if L * gamma * (2 * (n : ℚ) + 1) = 0 then
    Except.error "ZeroDivisionError"
  else
    let t := 1 / (L * gamma * (2 * (n : ℚ) + 1))
    if t < mu / L then Except.ok (mu / L)
    else if t > 1 then Except.ok 1
    else Except.ok t

/-- The returned theoretical value of `wc_gradient_descent_quadratics`
(line 123): `0.5 * L * max(alpha*(1 - alpha*L*gamma)^(2n),
(1 - L*gamma)^(2n))`. -/
def wc_gdq_tau (mu L gamma : ℚ) (n : ℕ) : Except String ℚ :=
  Except.map
    (fun alpha => 1 / 2 * L *
      max (alpha * (1 - alpha * L * gamma) ^ (2 * n)) ((1 - L * gamma) ^ (2 * n)))
    (wc_gdq_alpha mu L gamma n)

/-- The projection of `x` onto the closed interval `[a, b]` — the spec side
of the refinement stated by the claim, to be compared with the branching
computation `wc_gdq_alpha` taken from the source. -/
def projInterval (a b x : ℚ) : ℚ := max a (min b x)

/-- C10 counterexample: at `mu = 0`, `L = 0`, `gamma = 1`, `n = 0` — an
input satisfying `0 ≤ mu ≤ L`, `gamma > 0`, `n ≥ 0` — the computation of
`alpha` raises `ZeroDivisionError`, so no `alpha` (and no theoretical
value) is computed at all. -/
theorem wc_gdq_alpha_div_zero :
    (0 : ℚ) ≤ 0 ∧ (0 : ℚ) ≤ 0 ∧ (0 : ℚ) < 1 ∧
    wc_gdq_alpha 0 0 1 0 = Except.error "ZeroDivisionError" ∧
    ∀ q : ℚ, wc_gdq_alpha 0 0 1 0 ≠ Except.ok q := by
  refine ⟨le_refl 0, le_refl 0, by norm_num, ?_, ?_⟩
  · rw [wc_gdq_alpha, if_pos (by norm_num)]
  · intro q hq
    rw [wc_gdq_alpha, if_pos (by norm_num)] at hq
    exact Except.noConfusion hq

/-- C10 (amended): for every input with `0 ≤ mu ≤ L`, `L > 0`, `gamma > 0`
and `n ≥ 0`, the `alpha` computed inside `wc_gradient_descent_quadratics`
equals the projection of `1/(L*gamma*(2n+1))` onto the interval
`[mu/L, 1]`, and the returned theoretical value
`(L/2) * max(alpha*(1 - alpha*L*gamma)^(2n), (1 - L*gamma)^(2n))` is
non-negative. -/
theorem wc_gdq_alpha_eq_proj (mu L gamma : ℚ) (n : ℕ)
    (hmu : 0 ≤ mu) (hmuL : mu ≤ L) (hL : 0 < L) (hg : 0 < gamma) :
    wc_gdq_alpha mu L gamma n =
      Except.ok (projInterval (mu / L) 1 (1 / (L * gamma * (2 * (n : ℚ) + 1)))) ∧
    ∃ tau, wc_gdq_tau mu L gamma n = Except.ok tau ∧ 0 ≤ tau := by
  have hden : L * gamma * (2 * (n : ℚ) + 1) ≠ 0 := by positivity
  have hml : mu / L ≤ 1 := (div_le_one hL).mpr hmuL
  have hml0 : 0 ≤ mu / L := div_nonneg hmu hL.le
  have halpha : wc_gdq_alpha mu L gamma n =
      Except.ok (projInterval (mu / L) 1 (1 / (L * gamma * (2 * (n : ℚ) + 1)))) := by
    rw [wc_gdq_alpha, if_neg hden]
    simp only []
    set t := 1 / (L * gamma * (2 * (n : ℚ) + 1)) with ht
    unfold projInterval
    by_cases h1 : t < mu / L
    · rw [if_pos h1]
      have : min 1 t = t := min_eq_right (by linarith)
      rw [this, max_eq_left (by linarith)]
    · rw [if_neg h1]
      by_cases h2 : t > 1
      · rw [if_pos h2]
        rw [min_eq_left (by linarith), max_eq_right hml]
      · rw [if_neg h2]
        rw [min_eq_right (by linarith), max_eq_right (by linarith)]
  refine ⟨halpha, ?_⟩
  set a := projInterval (mu / L) 1 (1 / (L * gamma * (2 * (n : ℚ) + 1))) with ha
  refine ⟨1 / 2 * L *
    max (a * (1 - a * L * gamma) ^ (2 * n)) ((1 - L * gamma) ^ (2 * n)), ?_, ?_⟩
  · rw [wc_gdq_tau, halpha]
    rfl
  · have hB : (0 : ℚ) ≤ (1 - L * gamma) ^ (2 * n) := by
      rw [pow_mul]
      exact pow_nonneg (sq_nonneg _) n
    have hmax : (0 : ℚ) ≤
        max (a * (1 - a * L * gamma) ^ (2 * n)) ((1 - L * gamma) ^ (2 * n)) :=
      le_max_of_le_right hB
    have hL2 : (0 : ℚ) ≤ 1 / 2 * L := by positivity
    exact mul_nonneg hL2 hmax

/-- Witness for C10 (amended) at `mu = 0`, `L = 1`, `gamma = 1`, `n = 1`. -/
theorem wc_gdq_alpha_eq_proj_witness :
    (0 : ℚ) ≤ 0 ∧ (0 : ℚ) ≤ 1 ∧ (0 : ℚ) < 1 ∧
    (wc_gdq_alpha 0 1 1 1 =
      Except.ok (projInterval (0 / 1) 1 (1 / (1 * 1 * (2 * ((1 : ℕ) : ℚ) + 1)))) ∧
     ∃ tau, wc_gdq_tau 0 1 1 1 = Except.ok tau ∧ 0 ≤ tau) :=
  ⟨le_refl 0, by norm_num, by norm_num,
   wc_gdq_alpha_eq_proj 0 1 1 1 (le_refl 0) (by norm_num) (by norm_num) (by norm_num)⟩

end PEPit
